import Mathlib

/-!
Shallow embedding of the connect-4-multi backend core, translated from the
TypeScript sources:

* board engine, Elo helpers, abandonment detector:
  `packages/backend/src/lib/game.ts`
* HTTP game handlers (create / join-by-code / move / cancel /
  claim-abandoned / rematch / resign): `packages/backend/src/routes/games.ts`
* matchmaking queue: `packages/backend/src/routes/matchmaking.ts`
* shared constants and types: `packages/shared/src/index.ts`

Boards are flat 42-character row-major strings over the alphabet
`{'0','1','2'}`; we model them as `List Char`.  Wall-clock timestamps (JS
`Date` values, compared via `Date.now()` millisecond arithmetic) are `Nat`
milliseconds.  Database rows are Lean structures; a Prisma
`updateMany { where: P, data: D }` on a single row is modelled as a guard
predicate `P` evaluated on the row's state at write time, with affected
count 1 exactly when the guard holds.

Each route handler runs its read inside a transaction and then performs a
conditional write; because the conditional write is the concurrency
primitive, the row state the guard sees may differ from the state the
handler read.  The handler embeddings therefore take both a read-time row
(`gRead`, what `findUnique` returned) and a write-time row (`gWrite`, the
row state the `updateMany` executes against); instantiating both with the
same row recovers the interference-free execution.
-/

namespace Connect4

/-! ## Shared types and constants (`packages/shared/src/index.ts`) -/

inductive GameStatus
  | WAITING
  | ACTIVE
  | COMPLETED
  | ABANDONED
deriving DecidableEq, Repr

inductive GameResult
  | P1_WIN
  | P2_WIN
  | DRAW
deriving DecidableEq, Repr

/-- End reasons.  The shared type lists CONNECT4 / BOARD_FULL / ABANDONED;
the resign handler additionally writes the literal RESIGNED. -/
inductive EndReason
  | CONNECT4
  | BOARD_FULL
  | ABANDONED
  | RESIGNED
deriving DecidableEq, Repr

def BOARD_ROWS : Nat := 6
def BOARD_COLS : Nat := 7
def BOARD_SIZE : Nat := BOARD_ROWS * BOARD_COLS
def ABANDON_THRESHOLD_MS : Nat := 30 * 1000
def QUEUE_STALE_THRESHOLD_MS : Nat := 30 * 1000

/-- The constant `EMPTY_BOARD = '0'.repeat(BOARD_SIZE)`. -/
def emptyBoard : List Char := List.replicate BOARD_SIZE '0'

/-- One entry of the append-only move log. -/
structure Move where
  moveNumber : Nat
  column : Nat
  row : Nat
  player : Nat
  userId : String
  ts : Nat
deriving DecidableEq, Repr

/-- Error codes from `packages/backend/src/lib/errors.ts`
(only the codes the embedded handlers can raise). -/
inductive ApiErrorCode
  | USER_NOT_FOUND
  | GAME_NOT_FOUND
  | GAME_NOT_ACTIVE
  | GAME_NOT_FINISHED
  | GAME_NOT_STARTED
  | GAME_ALREADY_STARTED
  | NOT_YOUR_TURN
  | NOT_IN_GAME
  | CANNOT_JOIN_OWN_GAME
  | HAS_ACTIVE_GAME
  | INVALID_COLUMN
  | COLUMN_FULL
  | INVALID_CODE_FORMAT
  | OPPONENT_NOT_ABANDONED
  | USE_CLAIM_ABANDONED_ENDPOINT
  | MOVE_CONFLICT
  | NOT_GAME_CREATOR
  | OPPONENT_ALREADY_JOINED
deriving DecidableEq, Repr

/-! ## Board engine (`packages/backend/src/lib/game.ts`) -/

def validBoardChar (c : Char) : Bool :=
  c == '0' || c == '1' || c == '2'

/-- Embeds `assertValidBoard` as a boolean: length 42, alphabet `{'0','1','2'}`
(the source throws on failure; callers of the embedding branch on the
boolean). -/
def assertValidBoard (board : List Char) : Bool :=
  board.length == BOARD_SIZE && board.all validBoardChar

/-- Reads `board[row * 7 + col]`; out-of-range reads yield the sentinel `'X'`
(JS indexing yields `undefined`, which compares unequal to every
player character). -/
def cellAt (board : List Char) (row col : Nat) : Char :=
  board.getD (row * 7 + col) 'X'

/-- The scan of `findDropRow`: rows `fuel, fuel-1, …, 0`, first row whose
cell in `column` is `'0'`. -/
def findDropRowAux (board : List Char) (column : Nat) : Nat → Option Nat
  | 0 => if cellAt board 0 column == '0' then some 0 else none
  | r + 1 =>
    if cellAt board (r + 1) column == '0' then some (r + 1)
    else findDropRowAux board column r

/-- Embeds `findDropRow(board, column)`: lowest empty row of the column, scanning
from row 5 upward; `none` if the column index is invalid or no cell of the
column is `'0'`.  (The source also rejects `column < 0`; the embedding
takes a `Nat`, so that branch is unrepresentable.) -/
def findDropRow (board : List Char) (column : Nat) : Option Nat :=
  if column > 6 then none else findDropRowAux board column 5

/-- Embeds `player.toString()` for `player : 1 | 2`. -/
def playerChar (player : Nat) : Char :=
  if player == 1 then '1' else '2'

/-- Result of `applyMove`: the source throws on a malformed board
(`invalidBoard`), returns `null` when no drop row exists (`noMove`), and
otherwise returns the new board and the landing row. -/
inductive ApplyMoveResult
  | invalidBoard
  | noMove
  | ok (newBoard : List Char) (row : Nat)
deriving DecidableEq, Repr

/-- Embeds `applyMove(board, column, player)`.  The new board is
`board.substring(0, index) + player.toString() + board.substring(index+1)`
with `index = row * 7 + column`, re-validated before being returned. -/
def applyMove (board : List Char) (column : Nat) (player : Nat) :
    ApplyMoveResult :=
  if !assertValidBoard board then .invalidBoard
  else
    match findDropRow board column with
    | none => .noMove
    | some row =>
      let index := row * 7 + column
      let newBoard := board.take index ++ [playerChar player] ++ board.drop (index + 1)
      if !assertValidBoard newBoard then .invalidBoard
      else .ok newBoard row

/-- One cell comparison of `checkWin`'s scan: in-bounds and holding the
player's character. -/
def cellIs (board : List Char) (r c : Int) (player : Char) : Bool :=
  0 ≤ r && r ≤ 5 && 0 ≤ c && c ≤ 6 && board.getD (r * 7 + c).toNat 'X' == player

/-- The `for i in 1..3 … break` scan of `checkWin` along direction
`(dr, dc)` starting beside `(r, c)`: counts consecutive player cells,
stopping at the first mismatch or after `fuel` steps. -/
def countDirAux (board : List Char) (player : Char) (dr dc : Int) :
    Int → Int → Nat → Nat
  | _, _, 0 => 0
  | r, c, n + 1 =>
    if cellIs board (r + dr) (c + dc) player then
      1 + countDirAux board player dr dc (r + dr) (c + dc) n
    else 0

def DIRECTIONS : List (Int × Int) := [(0, 1), (1, 0), (1, 1), (1, -1)]

/-- Embeds `checkWin(board, row, col, player)`: 1 plus the consecutive counts in
both directions reaches 4 on some axis. -/
def checkWin (board : List Char) (row col : Int) (player : Char) : Bool :=
  DIRECTIONS.any fun d =>
    4 ≤ 1 + countDirAux board player d.1 d.2 row col 3
          + countDirAux board player (-d.1) (-d.2) row col 3

/-- Embeds `isBoardFull(board) = !board.includes('0')`. -/
def isBoardFull (board : List Char) : Bool :=
  !(board.contains '0')

/-! ## The Game record (Prisma `model Game`)

Field defaults follow the schema: `board` is 42 zeros, `currentTurn` is 1,
`status` is WAITING, `moves` is `[]`, every nullable field is null. -/

structure Game where
  id : String
  publicId : String
  code : Option String
  status : GameStatus
  board : List Char
  currentTurn : Nat
  moves : List Move
  player1Id : String
  player2Id : Option String
  result : Option GameResult
  endedReason : Option EndReason
  winnerId : Option String
  p1RatingBefore : Option Int
  p2RatingBefore : Option Int
  p1RatingDelta : Option Int
  p2RatingDelta : Option Int
  ratingAppliedAt : Option Nat
  player1LastSeen : Option Nat
  player2LastSeen : Option Nat
  rematchRequestedBy : Option Nat
  rematchGameId : Option String
  createdAt : Nat
  updatedAt : Nat
  completedAt : Option Nat
deriving DecidableEq, Repr

/-- Result of `checkAbandonment` (string union in the source). -/
inductive AbandonCheck
  | none
  | opponent_abandoned
deriving DecidableEq, Repr

/-- Embeds `checkAbandonment(game, requestingUserId)` with `Date.now()` passed as
`now`: only for ACTIVE games with a second player; compares the
*opponent's* last-seen timestamp against the 30-second threshold
(`now - opponentLastSeen > ABANDON_THRESHOLD_MS`, written additively to
stay in `Nat`). -/
def checkAbandonment (game : Game) (requestingUserId : String) (now : Nat) :
    AbandonCheck :=
  if game.status ≠ GameStatus.ACTIVE || game.player2Id.isNone then .none
  else
    let isPlayer1 := requestingUserId == game.player1Id
    let opponentLastSeen :=
      if isPlayer1 then game.player2LastSeen else game.player1LastSeen
    match opponentLastSeen with
    | Option.none => .none
    | some t =>
      if t + ABANDON_THRESHOLD_MS < now then .opponent_abandoned else .none

/-- The two pure Elo helpers (`calculateEloChange`, `calculateEloDraw`).
Their bodies use JS floating-point `Math.pow`/`Math.round`; no claim under
verification depends on the numeric deltas, only on which deltas are
written where, so the pair-producing functions are abstracted as
parameters.  `eloWin winnerRating loserRating = (winnerDelta, loserDelta)`
and `eloDraw rating1 rating2 = (delta1, delta2)`. -/
structure EloFns where
  eloWin : Int → Int → Int × Int
  eloDraw : Int → Int → Int × Int

/-! ## `POST /api/games/:id/move` (`routes/games.ts`)

The handler validates the column *before* the transaction, looks up the
game, runs the precondition chain, applies the move, and finishes with a
conditional write guarded on `status = ACTIVE ∧ currentTurn = player ∧
ratingAppliedAt = null` in both the terminal and the ongoing branch. -/

/-- Result of the precondition/compute phase of the move handler
(everything before the `updateMany`). -/
inductive MoveCheck
  | err (e : ApiErrorCode)
  | fatalBoard
  | ok (playerNumber : Nat) (isPlayer1 : Bool) (newBoard : List Char) (row : Nat)
deriving DecidableEq, Repr

/-- The precondition chain of the move handler, in source order: column
range (checked before the transaction), game exists, status ACTIVE,
player 2 present, requester is a player, opponent-abandonment check
*before* the turn check, turn, then `applyMove` (whose `null` return is
COLUMN_FULL and whose board-shape throw is `fatalBoard`).  The user-row
lookup (`USER_NOT_FOUND`) is assumed successful. -/
def submitMoveChecks (userId : String) (column : Int) (now : Nat)
    (gameQ : Option Game) : MoveCheck :=
  if column < 0 || 6 < column then .err .INVALID_COLUMN
  else
    match gameQ with
    | Option.none => .err .GAME_NOT_FOUND
    | some game =>
      if game.status ≠ GameStatus.ACTIVE then .err .GAME_NOT_ACTIVE
      else if game.player2Id.isNone then .err .GAME_NOT_STARTED
      else
        let isPlayer1 := userId == game.player1Id
        let isPlayer2 := some userId == game.player2Id
        if !isPlayer1 && !isPlayer2 then .err .NOT_IN_GAME
        else
          let playerNumber := if isPlayer1 then 1 else 2
          if checkAbandonment game userId now = AbandonCheck.opponent_abandoned then
            .err .USE_CLAIM_ABANDONED_ENDPOINT
          else if game.currentTurn ≠ playerNumber then .err .NOT_YOUR_TURN
          else
            match applyMove game.board column.toNat playerNumber with
            | .invalidBoard => .fatalBoard
            | .noMove => .err .COLUMN_FULL
            | .ok newBoard row => .ok playerNumber isPlayer1 newBoard row

/-- The `updateMany` guard shared by the terminal and the ongoing branch of
the move handler: the row's status is still ACTIVE, the turn still belongs
to the acting player, and the game has not been finalized. -/
def moveGuard (g : Game) (playerNumber : Nat) : Bool :=
  g.status == GameStatus.ACTIVE && g.currentTurn == playerNumber
    && g.ratingAppliedAt.isNone

/-- Outcome of the move handler.  `fatal` models the two `throw new Error`
invariant violations (malformed board, missing rating snapshots). -/
inductive MoveOutcome
  | err (e : ApiErrorCode)
  | fatal
  | moveApplied (move : Move)
  | gameEnded (reason : EndReason) (move : Move)
deriving DecidableEq, Repr

/-- The tail of the move transaction after the checks passed: build the new
move, classify win/draw, and perform the conditional write against the
write-time row `gWrite`.  Returns the outcome and the row's state after the
write (unchanged when the guard failed). -/
def submitMoveFinish (elo : EloFns) (userId : String) (column : Nat)
    (now : Nat) (gRead : Game) (playerNumber : Nat) (isPlayer1 : Bool)
    (newBoard : List Char) (row : Nat) (gWrite : Game) :
    MoveOutcome × Game :=
  let newMove : Move :=
    { moveNumber := gRead.moves.length + 1, column := column, row := row,
      player := playerNumber, userId := userId, ts := now }
  let newMoves := gRead.moves ++ [newMove]
  let isWin := checkWin newBoard (row : Int) (column : Int) (playerChar playerNumber)
  let isDraw := !isWin && isBoardFull newBoard
  if isWin || isDraw then
    match gRead.p1RatingBefore, gRead.p2RatingBefore with
    | some r1, some r2 =>
      let gameResult : GameResult :=
        if isDraw then .DRAW else if playerNumber == 1 then .P1_WIN else .P2_WIN
      let reason : EndReason := if isDraw then .BOARD_FULL else .CONNECT4
      let deltasWinner :=
        if isDraw then
          let d := elo.eloDraw r1 r2
          (d.1, d.2, (Option.none : Option String))
        else if playerNumber == 1 then
          let d := elo.eloWin r1 r2
          (d.1, d.2, some gRead.player1Id)
        else
          let d := elo.eloWin r2 r1
          (d.2, d.1, gRead.player2Id)
      if moveGuard gWrite playerNumber then
        (MoveOutcome.gameEnded reason newMove,
         { gWrite with
            board := newBoard, moves := newMoves, status := .COMPLETED,
            result := some gameResult, endedReason := some reason,
            winnerId := deltasWinner.2.2,
            p1RatingDelta := some deltasWinner.1,
            p2RatingDelta := some deltasWinner.2.1,
            ratingAppliedAt := some now, completedAt := some now })
      else (MoveOutcome.err .MOVE_CONFLICT, gWrite)
    | _, _ => (MoveOutcome.fatal, gWrite)
  else
    let nextTurn := if playerNumber == 1 then 2 else 1
    if moveGuard gWrite playerNumber then
      (MoveOutcome.moveApplied newMove,
       { gWrite with
          board := newBoard, moves := newMoves, currentTurn := nextTurn,
          player1LastSeen := if isPlayer1 then some now else gWrite.player1LastSeen,
          player2LastSeen := if isPlayer1 then gWrite.player2LastSeen else some now })
    else (MoveOutcome.err .MOVE_CONFLICT, gWrite)

/-- The full move handler: the precondition chain over the read-time row,
then the conditional-write tail against the write-time row. -/
def submitMove (elo : EloFns) (userId : String) (column : Int) (now : Nat)
    (gameQ : Option Game) (gWrite : Game) : MoveOutcome × Game :=
  match gameQ, submitMoveChecks userId column now gameQ with
  | _, .err e => (MoveOutcome.err e, gWrite)
  | _, .fatalBoard => (MoveOutcome.fatal, gWrite)
  | some gRead, .ok playerNumber isPlayer1 newBoard row =>
    submitMoveFinish elo userId column.toNat now gRead playerNumber isPlayer1
      newBoard row gWrite
  | Option.none, .ok .. => (MoveOutcome.fatal, gWrite)

/-! ## `POST /api/games/join/:code` (`routes/games.ts`) -/

/-- The `updateMany` guard of the join transaction: the row is still
WAITING and player 2 is still absent. -/
def joinGuard (g : Game) : Bool :=
  g.status == GameStatus.WAITING && g.player2Id.isNone

inductive JoinOutcome
  | err (e : ApiErrorCode)
  | fatal
  | joined (g : Game)
deriving DecidableEq, Repr

/-- The join-by-code transaction body (after code-format validation, user
lookup and the active-game precheck).  `gameQ` is the row found by code at
read time (with `player1` included, whose rating is `p1Rating`);
`userRating` is the joining player's rating re-fetched inside the
transaction; `player1GoesFirst` is the `Math.random() < 0.5` draw; `gWrite`
is the row state the conditional write executes against.  On guard success
one write assigns player 2, flips the status to ACTIVE, sets the first
turn, captures both rating snapshots and stamps both heartbeats; the
post-write assertion re-checks that both snapshots are set.  A guard
failure raises GAME_ALREADY_STARTED and leaves the row unchanged. -/
def joinByCode (userId : String) (userRating : Int) (p1Rating : Int)
    (now : Nat) (player1GoesFirst : Bool) (gameQ : Option Game)
    (gWrite : Game) : JoinOutcome × Game :=
  match gameQ with
  | Option.none => (.err .GAME_NOT_FOUND, gWrite)
  | some game =>
    if game.status ≠ GameStatus.WAITING then (.err .GAME_ALREADY_STARTED, gWrite)
    else if game.player2Id.isSome then (.err .GAME_ALREADY_STARTED, gWrite)
    else if game.player1Id == userId then (.err .CANNOT_JOIN_OWN_GAME, gWrite)
    else
      if joinGuard gWrite then
        let post :=
          { gWrite with
              player2Id := some userId, status := GameStatus.ACTIVE,
              currentTurn := if player1GoesFirst then 1 else 2,
              p1RatingBefore := some p1Rating, p2RatingBefore := some userRating,
              player1LastSeen := some now, player2LastSeen := some now }
        if post.p1RatingBefore.isNone || post.p2RatingBefore.isNone then
          (.fatal, post)
        else (.joined post, post)
      else (.err .GAME_ALREADY_STARTED, gWrite)

/-! ## `POST /api/games/:id/cancel` (`routes/games.ts`)

Unlike the move/join/claim/resign handlers, this endpoint runs *no*
transaction and its write carries *no* guard: a bare `findUnique` is
followed by `update({ where: { id: gameId }, data: { status: 'ABANDONED' } })`
keyed only on the row id.  The embedding therefore takes the row the
handler read (`gRead`, inspected by the three checks) and the row state
the unconditional update later executes against (`gWrite`); the same
shape fits the auto-cancel blocks of the create / join-by-code /
matchmaking handlers, whose status write is equally unguarded. -/

inductive CancelOutcome
  | err (e : ApiErrorCode)
  | success
deriving DecidableEq, Repr

def cancelGame (userId : String) (gRead gWrite : Game) :
    CancelOutcome × Game :=
  if gRead.status ≠ GameStatus.WAITING then
    (.err .GAME_ALREADY_STARTED, gWrite)
  else if gRead.player1Id ≠ userId then (.err .NOT_GAME_CREATOR, gWrite)
  else if gRead.player2Id.isSome then (.err .OPPONENT_ALREADY_JOINED, gWrite)
  else (.success, { gWrite with status := GameStatus.ABANDONED })

/-! ## `POST /api/games/:id/claim-abandoned` (`routes/games.ts`) -/

/-- The finalizing `updateMany` guard of both the claim-abandoned and the
resign handlers: status still ACTIVE and not yet finalized — the current
turn is *not* part of this guard. -/
def claimGuard (g : Game) : Bool :=
  g.status == GameStatus.ACTIVE && g.ratingAppliedAt.isNone

/-- Outcome of claim-abandoned / resign: either an error, a fatal
invariant violation (missing snapshots), or a game record (`game` carries
both the freshly finalized row and, on guard failure, the current
already-finalized row returned as a success). -/
inductive ClaimOutcome
  | err (e : ApiErrorCode)
  | fatal
  | game (g : Game)
deriving DecidableEq, Repr

/-- The claim-abandoned transaction body.  Preconditions as in the move
handler minus the turn check, plus `checkAbandonment` required to report
the opponent abandoned.  On guard success one write finalizes the game as
ABANDONED in the claimant's favor; when the guard fails the current row is
returned as a success instead of raising a conflict. -/
def claimAbandoned (elo : EloFns) (userId : String) (now : Nat)
    (gameQ : Option Game) (gWrite : Game) : ClaimOutcome × Game :=
  match gameQ with
  | Option.none => (.err .GAME_NOT_FOUND, gWrite)
  | some game =>
    if game.status ≠ GameStatus.ACTIVE then (.err .GAME_NOT_ACTIVE, gWrite)
    else if game.player2Id.isNone then (.err .GAME_NOT_STARTED, gWrite)
    else
      let isPlayer1 := userId == game.player1Id
      let isPlayer2 := some userId == game.player2Id
      if !isPlayer1 && !isPlayer2 then (.err .NOT_IN_GAME, gWrite)
      else if checkAbandonment game userId now ≠ AbandonCheck.opponent_abandoned then
        (.err .OPPONENT_NOT_ABANDONED, gWrite)
      else
        match game.p1RatingBefore, game.p2RatingBefore with
        | some r1, some r2 =>
          let gameResult : GameResult := if isPlayer1 then .P1_WIN else .P2_WIN
          let winnerId :=
            if isPlayer1 then some game.player1Id else game.player2Id
          let deltas :=
            if isPlayer1 then elo.eloWin r1 r2
            else
              let d := elo.eloWin r2 r1
              (d.2, d.1)
          if claimGuard gWrite then
            let post :=
              { gWrite with
                  status := GameStatus.ABANDONED, result := some gameResult,
                  endedReason := some EndReason.ABANDONED, winnerId := winnerId,
                  p1RatingDelta := some deltas.1, p2RatingDelta := some deltas.2,
                  ratingAppliedAt := some now, completedAt := some now }
            (.game post, post)
          else (.game gWrite, gWrite)
        | _, _ => (.fatal, gWrite)

/-! ## `POST /api/games/:id/resign` (`routes/games.ts`) -/

/-- The resign transaction body: preconditions ACTIVE / started / player;
the resigning player always loses; same guard as claim-abandoned (turn
irrelevant); guard failure returns the current finalized row. -/
def resignGame (elo : EloFns) (userId : String) (now : Nat)
    (gameQ : Option Game) (gWrite : Game) : ClaimOutcome × Game :=
  match gameQ with
  | Option.none => (.err .GAME_NOT_FOUND, gWrite)
  | some game =>
    if game.status ≠ GameStatus.ACTIVE then (.err .GAME_NOT_ACTIVE, gWrite)
    else if game.player2Id.isNone then (.err .GAME_NOT_STARTED, gWrite)
    else
      let isPlayer1 := userId == game.player1Id
      let isPlayer2 := some userId == game.player2Id
      if !isPlayer1 && !isPlayer2 then (.err .NOT_IN_GAME, gWrite)
      else
        match game.p1RatingBefore, game.p2RatingBefore with
        | some r1, some r2 =>
          let gameResult : GameResult := if isPlayer1 then .P2_WIN else .P1_WIN
          let winnerId :=
            if isPlayer1 then game.player2Id else some game.player1Id
          let deltas :=
            if isPlayer1 then
              let d := elo.eloWin r2 r1
              (d.2, d.1)
            else elo.eloWin r1 r2
          if claimGuard gWrite then
            let post :=
              { gWrite with
                  status := GameStatus.COMPLETED, result := some gameResult,
                  endedReason := some EndReason.RESIGNED, winnerId := winnerId,
                  p1RatingDelta := some deltas.1, p2RatingDelta := some deltas.2,
                  ratingAppliedAt := some now, completedAt := some now }
            (.game post, post)
          else (.game gWrite, gWrite)
        | _, _ => (.fatal, gWrite)

/-! ## Game creation helpers -/

/-- The WAITING record produced by `POST /api/games` via
`createGameWithPublicId` (schema defaults for every unspecified field). -/
def createWaitingGame (gid publicId : String) (code : String)
    (creatorId : String) (now : Nat) : Game :=
  { id := gid, publicId := publicId, code := some code,
    status := GameStatus.WAITING, board := emptyBoard, currentTurn := 1,
    moves := [], player1Id := creatorId, player2Id := Option.none,
    result := Option.none, endedReason := Option.none, winnerId := Option.none,
    p1RatingBefore := Option.none, p2RatingBefore := Option.none,
    p1RatingDelta := Option.none, p2RatingDelta := Option.none,
    ratingAppliedAt := Option.none, player1LastSeen := some now,
    player2LastSeen := Option.none, rematchRequestedBy := Option.none,
    rematchGameId := Option.none, createdAt := now, updatedAt := now,
    completedAt := Option.none }

/-- The ACTIVE record created directly by the matchmaking join handler and
by the rematch accept branch: both players present, both heartbeats
stamped, both rating snapshots captured from live ratings, no code. -/
def newActiveGame (gid publicId p1Id p2Id : String) (turn : Nat)
    (p1Rating p2Rating : Int) (now : Nat) : Game :=
  { id := gid, publicId := publicId, code := Option.none,
    status := GameStatus.ACTIVE, board := emptyBoard, currentTurn := turn,
    moves := [], player1Id := p1Id, player2Id := some p2Id,
    result := Option.none, endedReason := Option.none, winnerId := Option.none,
    p1RatingBefore := some p1Rating, p2RatingBefore := some p2Rating,
    p1RatingDelta := Option.none, p2RatingDelta := Option.none,
    ratingAppliedAt := Option.none, player1LastSeen := some now,
    player2LastSeen := some now, rematchRequestedBy := Option.none,
    rematchGameId := Option.none, createdAt := now, updatedAt := now,
    completedAt := Option.none }

/-! ## The active-game precheck of `POST /api/games` and
`POST /api/games/join/:code` (`routes/games.ts:74-88` and `142-156`,
textually identical; the matchmaking join handler repeats the same block).

If `getActiveGameForUser` found a WAITING game the requester created with
no second player, that game is auto-cancelled (status set to ABANDONED) and
the request proceeds; any other WAITING/ACTIVE game blocks the request with
HAS_ACTIVE_GAME. -/

inductive PrecheckOutcome
  | proceed
  | blocked
deriving DecidableEq, Repr

/-- The precheck; the second component is the state of the found active
game's row afterwards (rewritten by the auto-cancel, otherwise
untouched). -/
def activeGamePrecheck (userId : String) (activeGameQ : Option Game) :
    PrecheckOutcome × Option Game :=
  match activeGameQ with
  | Option.none => (.proceed, Option.none)
  | some g =>
    if g.status == GameStatus.WAITING && g.player1Id == userId
        && g.player2Id.isNone then
      (.proceed, some { g with status := GameStatus.ABANDONED })
    else (.blocked, some g)

/-- The precheck as performed by `POST /api/games` (`routes/games.ts:74-88`). -/
def createGamePrecheck (userId : String) (activeGameQ : Option Game) :
    PrecheckOutcome × Option Game :=
  activeGamePrecheck userId activeGameQ

/-- The precheck as performed by `POST /api/games/join/:code`
(`routes/games.ts:142-156`). -/
def joinByCodePrecheck (userId : String) (activeGameQ : Option Game) :
    PrecheckOutcome × Option Game :=
  activeGamePrecheck userId activeGameQ

/-! ## `POST /api/games/:id/rematch` (`routes/games.ts`) -/

inductive RematchOutcome
  | err (e : ApiErrorCode)
  | requested
  | accepted (newGameId : String)
deriving DecidableEq, Repr

/-- The rematch-link step of the accept branch (`routes/games.ts:700-714`):
`tx.game.update({ where: { id: gameId }, data: { rematchGameId: newGame.id } })`
followed by returning the freshly created game.  The update is keyed only
on the row id — it is *not* conditional on `rematchGameId` still being
null, there is no affected-count check, and no deletion path for the new
game.  `gWrite` is the original game's row state when the update executes;
the components are (outcome, original row afterwards, surviving new
game). -/
def rematchLinkPhase (gWrite : Game) (newGame : Game) :
    RematchOutcome × Game × Option Game :=
  (RematchOutcome.accepted newGame.id,
   { gWrite with rematchGameId := some newGame.id },
   some newGame)

/-- The rematch transaction body, interference-free (the link update
applied to the row that was read).  `findActive` is
`getActiveGameForUser`; `getRating` reads a user row's current rating;
`newId`/`newPublicId` are the generated ids of the prospective new game.
Components: (outcome, original row afterwards, created game if any). -/
def rematchRequest (userId : String) (now : Nat)
    (findActive : String → Option Game) (getRating : String → Int)
    (newId newPublicId : String) (g : Game) :
    RematchOutcome × Game × Option Game :=
  if !(g.status == GameStatus.COMPLETED || g.status == GameStatus.ABANDONED) then
    (.err .GAME_NOT_FINISHED, g, Option.none)
  else
    match g.player2Id with
    | Option.none => (.err .NOT_IN_GAME, g, Option.none)
    | some p2 =>
      let isPlayer1 := userId == g.player1Id
      let isPlayer2 := userId == p2
      if !isPlayer1 && !isPlayer2 then (.err .NOT_IN_GAME, g, Option.none)
      else
        let playerNumber := if isPlayer1 then 1 else 2
        match g.rematchGameId with
        | some rid => (.accepted rid, g, Option.none)
        | Option.none =>
          match g.rematchRequestedBy with
          | Option.none =>
            (.requested, { g with rematchRequestedBy := some playerNumber },
             Option.none)
          | some requester =>
            if requester == playerNumber then (.requested, g, Option.none)
            else
              if (findActive g.player1Id).isSome || (findActive p2).isSome then
                (.err .HAS_ACTIVE_GAME, g, Option.none)
              else
                let newGame := newActiveGame newId newPublicId p2 g.player1Id 1
                  (getRating p2) (getRating g.player1Id) now
                rematchLinkPhase g newGame

/-! ## Matchmaking queue (`routes/matchmaking.ts`)

The queue is a process-local insertion-ordered map under a single mutex;
modelled as a `List` of entries with unique user ids, the whole
`runExclusive` body as one atomic function. -/

structure QueueEntry where
  userId : String
  username : String
  rating : Int
  joinedAt : Nat
  lastHeartbeat : Nat
deriving DecidableEq, Repr

/-- The user-row fields the matchmaking handler reads. -/
structure MMUser where
  id : String
  username : String
  rating : Int
deriving DecidableEq, Repr

/-- Embeds `cleanupStaleQueueEntries`: drop entries whose heartbeat is older than
30 seconds (`now - lastHeartbeat > QUEUE_STALE_THRESHOLD_MS`). -/
def cleanupStaleQueueEntries (now : Nat) (q : List QueueEntry) :
    List QueueEntry :=
  q.filter fun e => !(e.lastHeartbeat + QUEUE_STALE_THRESHOLD_MS < now)

def queueHas (q : List QueueEntry) (userId : String) : Bool :=
  q.any (·.userId == userId)

/-- The FIFO scan: first entry belonging to a different user. -/
def findFirstOther (q : List QueueEntry) (userId : String) :
    Option QueueEntry :=
  q.find? (·.userId != userId)

/-- Embeds `matchmakingQueue.delete(userId)` (keys are unique). -/
def queueErase (q : List QueueEntry) (userId : String) : List QueueEntry :=
  q.filter (·.userId != userId)

/-- Embeds `matchmakingQueue.set(user.id, entry)` for an absent key: appends in
insertion order. -/
def newQueueEntry (user : MMUser) (now : Nat) : QueueEntry :=
  { userId := user.id, username := user.username, rating := user.rating,
    joinedAt := now, lastHeartbeat := now }

inductive MMStatus
  | already_queued
  | has_active_game (gameId : String)
  | queued
  | matched (gameId : String)
deriving DecidableEq, Repr

/-- Result of the matchmaking join body: response status, queue afterwards,
the game created (if matched), and the id of the auto-cancelled WAITING
game (if any). -/
structure MMResult where
  status : MMStatus
  queue : List QueueEntry
  createdGame : Option Game
  autoCancelled : Option String
deriving DecidableEq, Repr

/-- The part of the matchmaking join after the already-queued and
active-game prechecks: sweep stale entries, scan for the first
different-user entry, remove it, re-verify it has no WAITING/ACTIVE game
(re-queueing the current user on failure), otherwise create the ACTIVE
game from both users' live ratings; with no candidate, enqueue the current
user. -/
def mmJoinAfterActive (user : MMUser) (now : Nat) (player1GoesFirst : Bool)
    (findActive : String → Option Game) (getUser : String → MMUser)
    (newId newPublicId : String) (q : List QueueEntry)
    (cancelled : Option String) : MMResult :=
  let q1 := cleanupStaleQueueEntries now q
  match findFirstOther q1 user.id with
  | some matchedEntry =>
    let q2 := queueErase q1 matchedEntry.userId
    match findActive matchedEntry.userId with
    | some _ =>
      { status := .queued, queue := q2 ++ [newQueueEntry user now],
        createdGame := Option.none, autoCancelled := cancelled }
    | Option.none =>
      let p1Data := getUser matchedEntry.userId
      let p2Data := getUser user.id
      let game := newActiveGame newId newPublicId matchedEntry.userId user.id
        (if player1GoesFirst then 1 else 2) p1Data.rating p2Data.rating now
      { status := .matched game.id, queue := q2, createdGame := some game,
        autoCancelled := cancelled }
  | Option.none =>
    { status := .queued, queue := q1 ++ [newQueueEntry user now],
      createdGame := Option.none, autoCancelled := cancelled }

/-- The whole `runExclusive` body of `POST /api/matchmaking/join`:
idempotent already-queued check first, then the active-game precheck with
auto-cancel of an own empty WAITING game, then `mmJoinAfterActive`. -/
def mmJoin (user : MMUser) (now : Nat) (player1GoesFirst : Bool)
    (findActive : String → Option Game) (getUser : String → MMUser)
    (newId newPublicId : String) (q : List QueueEntry) : MMResult :=
  if queueHas q user.id then
    { status := .already_queued, queue := q, createdGame := Option.none,
      autoCancelled := Option.none }
  else
    match findActive user.id with
    | some g =>
      if g.status == GameStatus.WAITING && g.player1Id == user.id
          && g.player2Id.isNone then
        mmJoinAfterActive user now player1GoesFirst findActive getUser newId
          newPublicId q (some g.id)
      else
        { status := .has_active_game g.id, queue := q,
          createdGame := Option.none, autoCancelled := Option.none }
    | Option.none =>
      mmJoinAfterActive user now player1GoesFirst findActive getUser newId
        newPublicId q Option.none

/-! ## `GET /api/games/by-public/:publicId` heartbeat write
(`routes/games.ts:241-254`). -/

def heartbeatRefresh (userId : String) (now : Nat) (g : Game) : Game :=
  if g.status == GameStatus.WAITING || g.status == GameStatus.ACTIVE then
    if g.player1Id == userId then { g with player1LastSeen := some now }
    else if g.player2Id == some userId then { g with player2LastSeen := some now }
    else g
  else g

/-! ## Rating-bookkeeping invariant -/

def snapshotsSet (g : Game) : Prop :=
  g.p1RatingBefore.isSome ∧ g.p2RatingBefore.isSome

def finalized (g : Game) : Prop :=
  g.p1RatingDelta.isSome ∧ g.p2RatingDelta.isSome ∧ g.ratingAppliedAt.isSome

def terminalStatus (g : Game) : Prop :=
  g.status = GameStatus.COMPLETED ∨ g.status = GameStatus.ABANDONED

/-- The invariant of the spec: deltas and the finalization timestamp are
non-null exactly when both before-snapshots are non-null and the status is
terminal. -/
def ratingInvariant (g : Game) : Prop :=
  finalized g ↔ (snapshotsSet g ∧ terminalStatus g)

/-! ## Shared concrete sample data for witnesses -/

/-- A concrete Elo-function pair for witness instantiations. -/
def sampleElo : EloFns :=
  { eloWin := fun _ _ => (16, -16), eloDraw := fun _ _ => (0, 0) }

/-- An ACTIVE game between `"u1"` and `"u2"`, empty board, player 1 to
move, snapshots captured, both players just seen. -/
def sampleActiveGame : Game :=
  { id := "g1", publicId := "PUB1", code := Option.none,
    status := GameStatus.ACTIVE, board := emptyBoard, currentTurn := 1,
    moves := [], player1Id := "u1", player2Id := some "u2",
    result := Option.none, endedReason := Option.none, winnerId := Option.none,
    p1RatingBefore := some 1200, p2RatingBefore := some 1200,
    p1RatingDelta := Option.none, p2RatingDelta := Option.none,
    ratingAppliedAt := Option.none, player1LastSeen := some 0,
    player2LastSeen := some 0, rematchRequestedBy := Option.none,
    rematchGameId := Option.none, createdAt := 0, updatedAt := 0,
    completedAt := Option.none }

/-- The board produced by dropping player 1's piece into column 0 of the
empty board (landing row 5, index 35). -/
def sampleNewBoard : List Char :=
  emptyBoard.take 35 ++ ['1'] ++ emptyBoard.drop 36

/-- A COMPLETED game between `"u1"` and `"u2"` whose rematch-game link was
already set to `"gA"` by a concurrent accept. -/
def c2Original : Game :=
  { id := "g1", publicId := "PUB1", code := Option.none,
    status := GameStatus.COMPLETED, board := emptyBoard, currentTurn := 1,
    moves := [], player1Id := "u1", player2Id := some "u2",
    result := some GameResult.P1_WIN, endedReason := some EndReason.CONNECT4,
    winnerId := some "u1", p1RatingBefore := some 1200,
    p2RatingBefore := some 1200, p1RatingDelta := some 16,
    p2RatingDelta := some (-16), ratingAppliedAt := some 10,
    player1LastSeen := some 10, player2LastSeen := some 10,
    rematchRequestedBy := some 1, rematchGameId := some "gA",
    createdAt := 0, updatedAt := 10, completedAt := some 10 }

/-- The swapped-roles rematch game `"gB"` just created by the losing
concurrent accept request. -/
def c2NewGame : Game :=
  newActiveGame "gB" "PUBB" "u2" "u1" 1 1200 1200 20

/-- The WAITING game `"u1"` created, as the cancel handler reads it. -/
def c7WaitingGame : Game :=
  createWaitingGame "gC7" "PUBC7" "CODEC7" "u1" 0

/-- The same row after `"u2"`'s join transaction commits between the
cancel handler's read and its unconditional write: ACTIVE, player 2
assigned, both rating snapshots captured. -/
def c7JoinedGame : Game :=
  (joinByCode "u2" 1250 1200 5 true (some c7WaitingGame) c7WaitingGame).2

/-! ## Theorems -/

/-- C2.  The rematch-link step evaluated at the failing input: the
original game's row already carries the rematch link `"gA"` (set by the
winning concurrent accept) when the link update of the losing request
executes.  The source performs a plain `update` keyed only on the row id —
not the `updateMany` conditioned on `rematchGameId: null` with
orphan-deletion fallback that the repository's own `Spec.md` prescribes —
so the losing request overwrites the link with its own game `"gB"`,
returns `"gB"` as accepted, and the orphan game survives. -/
theorem rematchLink_overwrites_existing_link :
    rematchLinkPhase c2Original c2NewGame
        = (RematchOutcome.accepted "gB",
           { c2Original with rematchGameId := some "gB" }, some c2NewGame) ∧
      c2Original.rematchGameId = some "gA" ∧ "gA" ≠ "gB" :=
  ⟨rfl, rfl, by decide⟩

/-- C3 counterexample.  A move submission with an out-of-range column on a
nonexistent game is answered with INVALID_COLUMN, not GAME_NOT_FOUND: the
column-range check runs before the transaction, so it is *not* checked
last, and an earlier-listed failing precondition (game exists) is not
reported in preference to it. -/
theorem invalidColumn_precedes_gameNotFound :
    submitMoveChecks "u1" 7 0 Option.none = .err .INVALID_COLUMN ∧
      submitMoveChecks "u1" 7 0 Option.none ≠ .err .GAME_NOT_FOUND := by
  constructor
  · rfl
  · decide

/-- C4.  On an existing ACTIVE game with both players present where the
acting user is a player, a move submission whose abandonment check reports
the opponent abandoned is rejected with USE_CLAIM_ABANDONED_ENDPOINT — the
turn is unconstrained here, so the abandonment rejection fires regardless
of whose turn it is and the caller is never answered with NOT_YOUR_TURN. -/
theorem abandonmentCheckPrecedesTurnCheck
    (userId : String) (column : Int) (now : Nat) (g : Game)
    (hcol : ¬(column < 0 ∨ 6 < column))
    (hact : g.status = GameStatus.ACTIVE)
    (hp2 : g.player2Id.isSome)
    (hmem : userId = g.player1Id ∨ some userId = g.player2Id)
    (hab : checkAbandonment g userId now = AbandonCheck.opponent_abandoned) :
    submitMoveChecks userId column now (some g)
      = .err .USE_CLAIM_ABANDONED_ENDPOINT := by
  have h1 : ¬(column < 0) := fun h => hcol (Or.inl h)
  have h2 : ¬(6 < column) := fun h => hcol (Or.inr h)
  have hmem2 : (!(userId == g.player1Id) && !(some userId == g.player2Id)) = false := by
    rcases hmem with h | h <;> simp [h]
  unfold submitMoveChecks
  simp [h1, h2, hact, hmem2, hab, Option.isNone_iff_eq_none]
  intro hnone
  rw [hnone] at hp2
  simp at hp2

/-- C4 witness: player 1 submits a move while it is the opponent's turn
(`currentTurn = 2`) and the opponent was last seen at time 0 with the
clock at 30001 ms; the submission is rejected toward the claim endpoint,
not with NOT_YOUR_TURN. -/
theorem abandonmentCheckPrecedesTurnCheck_witness :
    submitMoveChecks "u1" 3 30001
        (some { sampleActiveGame with currentTurn := 2 })
      = .err .USE_CLAIM_ABANDONED_ENDPOINT :=
  abandonmentCheckPrecedesTurnCheck "u1" 3 30001
    { sampleActiveGame with currentTurn := 2 }
    (by decide) (by decide) (by decide) (Or.inl (by decide)) (by decide)

/-- C10.  The active-game precheck shared verbatim by the create-game and
join-by-code handlers: with no current WAITING/ACTIVE game the request
proceeds; when the user's current game is a WAITING game they created with
no second player, it is auto-cancelled (only its status is rewritten, to
ABANDONED) and the request proceeds; any other current game blocks the
request with HAS_ACTIVE_GAME and the row is untouched. -/
theorem createAndJoinAutoCancelPrecheck (userId : String) (g : Game) :
    (createGamePrecheck userId Option.none = (.proceed, Option.none) ∧
      joinByCodePrecheck userId Option.none = (.proceed, Option.none)) ∧
    (g.status = GameStatus.WAITING → g.player1Id = userId →
      g.player2Id = Option.none →
      createGamePrecheck userId (some g)
          = (.proceed, some { g with status := GameStatus.ABANDONED }) ∧
        joinByCodePrecheck userId (some g)
          = (.proceed, some { g with status := GameStatus.ABANDONED })) ∧
    (¬(g.status = GameStatus.WAITING ∧ g.player1Id = userId ∧
        g.player2Id = Option.none) →
      createGamePrecheck userId (some g) = (.blocked, some g) ∧
        joinByCodePrecheck userId (some g) = (.blocked, some g)) := by
  refine ⟨⟨rfl, rfl⟩, ?_, ?_⟩
  · intro h1 h2 h3
    constructor <;>
      simp [createGamePrecheck, joinByCodePrecheck, activeGamePrecheck,
        h1, h2, h3]
  · intro h
    have hb : (g.status == GameStatus.WAITING && g.player1Id == userId
        && g.player2Id.isNone) = false := by
      rw [Bool.eq_false_iff]
      intro hc
      simp only [Bool.and_eq_true, beq_iff_eq, Option.isNone_iff_eq_none] at hc
      exact h ⟨hc.1.1, hc.1.2, hc.2⟩
    constructor <;>
      simp [createGamePrecheck, joinByCodePrecheck, activeGamePrecheck, hb]

/-- C10 witness: user `"u1"` holds the WAITING game they created with no
opponent; the precheck of both handlers auto-cancels it and proceeds. -/
theorem createAndJoinAutoCancelPrecheck_witness :
    createGamePrecheck "u1" (some (createWaitingGame "g9" "PUB9" "CODE99" "u1" 0))
      = (.proceed,
         some { createWaitingGame "g9" "PUB9" "CODE99" "u1" 0 with
                  status := GameStatus.ABANDONED }) :=
  ((createAndJoinAutoCancelPrecheck "u1"
      (createWaitingGame "g9" "PUB9" "CODE99" "u1" 0)).2.1
    (by decide) (by decide) (by decide)).1

/-- C5.  For a claim-abandoned call whose read-phase preconditions all
pass: the finalizing conditional write is guarded only by status ACTIVE
and a null finalization timestamp (the current turn is not part of the
guard — rewriting it leaves the guard unchanged); when the guard fails the
current row is returned as a success with the state untouched, no
conflict error; when it holds, one write finalizes the game as ABANDONED
with both deltas and the timestamp set. -/
theorem claimAbandonedGuardAndIdempotence
    (elo : EloFns) (userId : String) (now : Nat) (gRead gWrite : Game)
    (r1 r2 : Int)
    (hact : gRead.status = GameStatus.ACTIVE)
    (hp2 : gRead.player2Id.isSome)
    (hmem : userId = gRead.player1Id ∨ some userId = gRead.player2Id)
    (hab : checkAbandonment gRead userId now = AbandonCheck.opponent_abandoned)
    (hs1 : gRead.p1RatingBefore = some r1)
    (hs2 : gRead.p2RatingBefore = some r2) :
    (∀ t, claimGuard { gWrite with currentTurn := t } = claimGuard gWrite) ∧
    (claimGuard gWrite = false →
      claimAbandoned elo userId now (some gRead) gWrite
        = (.game gWrite, gWrite)) ∧
    (claimGuard gWrite = true →
      ∃ post, claimAbandoned elo userId now (some gRead) gWrite
          = (.game post, post) ∧
        post.status = GameStatus.ABANDONED ∧
        post.ratingAppliedAt = some now ∧
        post.p1RatingDelta.isSome ∧ post.p2RatingDelta.isSome) := by
  obtain ⟨p2, hp2e⟩ := Option.isSome_iff_exists.mp hp2
  have hm : userId = gRead.player1Id ∨ userId = p2 := by
    rcases hmem with h | h
    · exact Or.inl h
    · rw [hp2e] at h
      exact Or.inr (Option.some_inj.mp h)
  refine ⟨fun t => rfl, ?_, ?_⟩
  · intro hg
    unfold claimAbandoned
    simp [hact, hp2e, hab, hs1, hs2, hg]
    intro h
    rcases hm with h1 | h1
    · exact absurd h1 h
    · exact h1
  · intro hg
    rcases hm with h1 | h1 <;> subst h1 <;>
      · unfold claimAbandoned
        simp [hact, hp2e, hab, hs1, hs2, hg]

/-- C5 witness: the game was already finalized by a concurrent claim
(status ABANDONED at write time), so the guard affects zero rows and the
operation returns the current record as a success, not a conflict. -/
theorem claimAbandonedGuardAndIdempotence_witness :
    claimAbandoned sampleElo "u1" 30001 (some sampleActiveGame)
        { sampleActiveGame with status := GameStatus.ABANDONED }
      = (.game { sampleActiveGame with status := GameStatus.ABANDONED },
         { sampleActiveGame with status := GameStatus.ABANDONED }) :=
  (claimAbandonedGuardAndIdempotence sampleElo "u1" 30001 sampleActiveGame
      { sampleActiveGame with status := GameStatus.ABANDONED } 1200 1200
      (by decide) (by decide) (Or.inl (by decide)) (by decide) rfl rfl).2.1
    (by decide)

/-- C6.  For a join-by-code whose read-phase checks pass (existing WAITING
game, no second player, joiner is not the creator): the status flip to
ACTIVE, the player-2 assignment and the capture of both rating snapshots
happen in one conditional write guarded on status still WAITING and
player 2 still absent; a guard failure yields GAME_ALREADY_STARTED with
the row unchanged; after a successful join the guard no longer holds, and
any join attempt that instead reads a non-WAITING row fails with
GAME_ALREADY_STARTED without touching it — so of concurrent join attempts
exactly one succeeds and every loser sees already-started. -/
theorem joinConditionalActivation
    (userId : String) (userRating p1Rating : Int) (now : Nat)
    (player1GoesFirst : Bool) (g gWrite : Game)
    (hw : g.status = GameStatus.WAITING)
    (hp2 : g.player2Id = Option.none)
    (hne : g.player1Id ≠ userId) :
    (joinGuard gWrite = false →
      joinByCode userId userRating p1Rating now player1GoesFirst (some g) gWrite
        = (.err .GAME_ALREADY_STARTED, gWrite)) ∧
    (joinGuard gWrite = true →
      ∃ post,
        joinByCode userId userRating p1Rating now player1GoesFirst (some g)
            gWrite = (.joined post, post) ∧
        post.status = GameStatus.ACTIVE ∧
        post.player2Id = some userId ∧
        post.p1RatingBefore = some p1Rating ∧
        post.p2RatingBefore = some userRating ∧
        post.currentTurn = (if player1GoesFirst then 1 else 2) ∧
        post.player1LastSeen = some now ∧
        post.player2LastSeen = some now ∧
        joinGuard post = false) ∧
    (∀ g2 gw2, g2.status ≠ GameStatus.WAITING →
      joinByCode userId userRating p1Rating now player1GoesFirst (some g2) gw2
        = (.err .GAME_ALREADY_STARTED, gw2)) := by
  refine ⟨?_, ?_, ?_⟩
  · intro hg
    unfold joinByCode
    simp [hw, hp2, hne, hg]
  · intro hg
    unfold joinByCode
    simp [hw, hp2, hne, hg]
    simp [joinGuard]
  · intro g2 gw2 hne2
    unfold joinByCode
    simp [hne2]

/-- C6 witness: `"u2"` joins the WAITING game `"u1"` created while the row
is still unchanged at write time; the single conditional write activates
the game, assigns player 2 and captures both snapshots, and afterwards the
guard is dead for any concurrent duplicate join. -/
theorem joinConditionalActivation_witness :
    ∃ post,
      joinByCode "u2" 1250 1200 5 true
          (some (createWaitingGame "g9" "PUB9" "CODE99" "u1" 0))
          (createWaitingGame "g9" "PUB9" "CODE99" "u1" 0)
        = (.joined post, post) ∧
      post.status = GameStatus.ACTIVE ∧
      post.player2Id = some "u2" ∧
      post.p1RatingBefore = some 1200 ∧
      post.p2RatingBefore = some 1250 ∧
      post.currentTurn = (if True then 1 else 2) ∧
      post.player1LastSeen = some 5 ∧
      post.player2LastSeen = some 5 ∧
      joinGuard post = false := by
  have h := (joinConditionalActivation "u2" 1250 1200 5 true
      (createWaitingGame "g9" "PUB9" "CODE99" "u1" 0)
      (createWaitingGame "g9" "PUB9" "CODE99" "u1" 0)
      (by decide) (by decide) (by decide)).2.1 (by decide)
  simpa using h

/-- C1.  For a move submission whose precondition chain passes (and whose
read row carries both rating snapshots, as every reachable ACTIVE game
does): both the terminal and the ongoing branch write through a
conditional update guarded on status still ACTIVE, turn still the acting
player's, and finalization timestamp still null; when the guard fails
(affected count 0) the call returns MOVE_CONFLICT and the row is
unchanged; when it holds the write lands and afterwards the guard is false
for the same turn — so of concurrent submissions on the same game and
turn at most one can succeed. -/
theorem moveConditionalWriteSerializes
    (elo : EloFns) (userId : String) (column : Int) (now : Nat)
    (gRead gWrite : Game) (pn : Nat) (isP1 : Bool) (nb : List Char)
    (row : Nat)
    (hchk : submitMoveChecks userId column now (some gRead)
      = .ok pn isP1 nb row)
    (hs1 : gRead.p1RatingBefore.isSome)
    (hs2 : gRead.p2RatingBefore.isSome) :
    (moveGuard gWrite pn = false →
      submitMove elo userId column now (some gRead) gWrite
        = (MoveOutcome.err .MOVE_CONFLICT, gWrite)) ∧
    (moveGuard gWrite pn = true →
      ∀ out g2,
        submitMove elo userId column now (some gRead) gWrite = (out, g2) →
        ((∃ m, out = MoveOutcome.moveApplied m) ∨
          ∃ r m, out = MoveOutcome.gameEnded r m) ∧
        moveGuard g2 pn = false) := by
  obtain ⟨r1, hr1⟩ := Option.isSome_iff_exists.mp hs1
  obtain ⟨r2, hr2⟩ := Option.isSome_iff_exists.mp hs2
  have hred : submitMove elo userId column now (some gRead) gWrite
      = submitMoveFinish elo userId column.toNat now gRead pn isP1 nb row
          gWrite := by
    unfold submitMove
    rw [hchk]
  constructor
  · intro hg
    rw [hred]
    unfold submitMoveFinish
    simp [hr1, hr2, hg]
  · intro hg out g2 heq
    rw [hred] at heq
    unfold submitMoveFinish at heq
    simp only [hr1, hr2, hg, if_true] at heq
    split at heq
    · rw [Prod.mk.injEq] at heq
      refine ⟨Or.inr ⟨_, _, heq.1.symm⟩, ?_⟩
      rw [← heq.2]
      simp [moveGuard]
    · rw [Prod.mk.injEq] at heq
      refine ⟨Or.inl ⟨_, heq.1.symm⟩, ?_⟩
      rw [← heq.2]
      simp [moveGuard]
      intro _ h
      by_cases hp : pn = 1
      · simp [hp] at h
      · simp [hp] at h
        omega

/-- C1 witness: player 1's move on the sample game passes every
precondition, but at write time a concurrent request already advanced the
turn to player 2, so the guard affects zero rows and the call fails with
MOVE_CONFLICT leaving the row unchanged. -/
theorem moveConditionalWriteSerializes_witness :
    submitMove sampleElo "u1" 0 0 (some sampleActiveGame)
        { sampleActiveGame with currentTurn := 2 }
      = (MoveOutcome.err .MOVE_CONFLICT,
         { sampleActiveGame with currentTurn := 2 }) :=
  (moveConditionalWriteSerializes sampleElo "u1" 0 0 sampleActiveGame
      { sampleActiveGame with currentTurn := 2 } 1 true sampleNewBoard 5
      (by decide) (by decide) (by decide)).1 (by decide)

/-- C8.  The matchmaking join body: (1) an already-queued user gets
`already_queued` with the queue untouched and no game created;
(2) when the FIFO scan of the swept queue yields a candidate but
re-verification finds the candidate already holds a WAITING/ACTIVE game,
no game is created — the stale candidate stays removed and the current
user is enqueued with `queued`; (3) a candidate passing re-verification
yields `matched` with a new ACTIVE game pairing candidate (player 1) and
joiner (player 2), snapshots taken from both users' current live
ratings. -/
theorem mmJoinBehaviour
    (user : MMUser) (now : Nat) (rnd : Bool)
    (findActive : String → Option Game) (getUser : String → MMUser)
    (newId newPublicId : String) (q : List QueueEntry) :
    (queueHas q user.id = true →
      mmJoin user now rnd findActive getUser newId newPublicId q
        = { status := .already_queued, queue := q,
            createdGame := Option.none, autoCancelled := Option.none }) ∧
    (∀ c, queueHas q user.id = false → findActive user.id = Option.none →
      findFirstOther (cleanupStaleQueueEntries now q) user.id = some c →
      (findActive c.userId).isSome = true →
      mmJoin user now rnd findActive getUser newId newPublicId q
        = { status := .queued,
            queue := queueErase (cleanupStaleQueueEntries now q) c.userId
              ++ [newQueueEntry user now],
            createdGame := Option.none, autoCancelled := Option.none }) ∧
    (∀ c, queueHas q user.id = false → findActive user.id = Option.none →
      findFirstOther (cleanupStaleQueueEntries now q) user.id = some c →
      findActive c.userId = Option.none →
      mmJoin user now rnd findActive getUser newId newPublicId q
        = { status := .matched newId,
            queue := queueErase (cleanupStaleQueueEntries now q) c.userId,
            createdGame := some (newActiveGame newId newPublicId c.userId
              user.id (if rnd then 1 else 2) (getUser c.userId).rating
              (getUser user.id).rating now),
            autoCancelled := Option.none }) := by
  refine ⟨?_, ?_, ?_⟩
  · intro h
    unfold mmJoin
    simp [h]
  · intro c h1 h2 h3 h4
    obtain ⟨g, hge⟩ := Option.isSome_iff_exists.mp h4
    unfold mmJoin mmJoinAfterActive
    simp [h1, h2, h3, hge]
  · intro c h1 h2 h3 h4
    unfold mmJoin mmJoinAfterActive
    simp [h1, h2, h3, h4]
    rfl

/-- C8 witness: `"u3"` joins while `"u2"` waits in the queue with a fresh
heartbeat and neither user has a current game; the scan matches them and
one ACTIVE game is created from their live ratings. -/
theorem mmJoinBehaviour_witness :
    mmJoin ⟨"u3", "Uthree", 1300⟩ 100 true (fun _ => Option.none)
        (fun s => ⟨s, s, 1000⟩) "ng" "PUBN"
        [⟨"u2", "Utwo", 1100, 90, 90⟩]
      = { status := .matched "ng",
          queue := [],
          createdGame := some (newActiveGame "ng" "PUBN" "u2" "u3" 1 1000
            1000 100),
          autoCancelled := Option.none } := by
  have h := (mmJoinBehaviour ⟨"u3", "Uthree", 1300⟩ 100 true
      (fun _ => Option.none) (fun s => ⟨s, s, 1000⟩) "ng" "PUBN"
      [⟨"u2", "Utwo", 1100, 90, 90⟩]).2.2 ⟨"u2", "Utwo", 1100, 90, 90⟩
      (by decide) rfl (by decide) rfl
  simpa using h

/-- C3 amended.  The move handler's precondition order as implemented:
column range is checked *first* (before the transaction), and then, in
order, game exists, status ACTIVE, player 2 present, requester is a
player, opponent abandonment, turn, and last column-not-full — each
failure with its own distinct error code. -/
theorem moveCheckOrderAmended
    (userId : String) (column : Int) (now : Nat) (g : Game) :
    ((column < 0 ∨ 6 < column) → ∀ gameQ,
      submitMoveChecks userId column now gameQ = .err .INVALID_COLUMN) ∧
    (¬(column < 0 ∨ 6 < column) →
      submitMoveChecks userId column now Option.none
        = .err .GAME_NOT_FOUND) ∧
    (¬(column < 0 ∨ 6 < column) → g.status ≠ GameStatus.ACTIVE →
      submitMoveChecks userId column now (some g)
        = .err .GAME_NOT_ACTIVE) ∧
    (¬(column < 0 ∨ 6 < column) → g.status = GameStatus.ACTIVE →
      g.player2Id = Option.none →
      submitMoveChecks userId column now (some g)
        = .err .GAME_NOT_STARTED) ∧
    (¬(column < 0 ∨ 6 < column) → g.status = GameStatus.ACTIVE →
      g.player2Id.isSome → userId ≠ g.player1Id →
      some userId ≠ g.player2Id →
      submitMoveChecks userId column now (some g) = .err .NOT_IN_GAME) ∧
    (¬(column < 0 ∨ 6 < column) → g.status = GameStatus.ACTIVE →
      g.player2Id.isSome →
      (userId = g.player1Id ∨ some userId = g.player2Id) →
      checkAbandonment g userId now = AbandonCheck.opponent_abandoned →
      submitMoveChecks userId column now (some g)
        = .err .USE_CLAIM_ABANDONED_ENDPOINT) ∧
    (¬(column < 0 ∨ 6 < column) → g.status = GameStatus.ACTIVE →
      g.player2Id.isSome →
      (userId = g.player1Id ∨ some userId = g.player2Id) →
      checkAbandonment g userId now = AbandonCheck.none →
      g.currentTurn ≠ (if userId = g.player1Id then 1 else 2) →
      submitMoveChecks userId column now (some g) = .err .NOT_YOUR_TURN) ∧
    (¬(column < 0 ∨ 6 < column) → g.status = GameStatus.ACTIVE →
      g.player2Id.isSome →
      (userId = g.player1Id ∨ some userId = g.player2Id) →
      checkAbandonment g userId now = AbandonCheck.none →
      g.currentTurn = (if userId = g.player1Id then 1 else 2) →
      assertValidBoard g.board = true →
      findDropRow g.board column.toNat = Option.none →
      submitMoveChecks userId column now (some g) = .err .COLUMN_FULL) := by
  refine ⟨?_, ?_, ?_, ?_, ?_, ?_, ?_, ?_⟩
  · intro h gameQ
    unfold submitMoveChecks
    rcases h with h | h <;> simp [h]
  · intro h
    unfold submitMoveChecks
    simp [h]
  · intro h hact
    unfold submitMoveChecks
    simp [h, hact]
  · intro h hact hp2
    unfold submitMoveChecks
    simp [h, hact, hp2]
  · intro h hact hp2 hne1 hne2
    obtain ⟨p2, hp2e⟩ := Option.isSome_iff_exists.mp hp2
    rw [hp2e] at hne2
    have hne2a : userId ≠ p2 := fun hh => hne2 (by rw [hh])
    unfold submitMoveChecks
    simp [h, hact, hp2e, hne1, hne2a]
  · intro h hact hp2 hmem hab
    obtain ⟨p2, hp2e⟩ := Option.isSome_iff_exists.mp hp2
    by_cases hpp : userId = g.player1Id
    · subst hpp
      unfold submitMoveChecks
      simp [h, hact, hp2e, hab]
    · have hm2 : userId = p2 := by
        rcases hmem with hm | hm
        · exact absurd hm hpp
        · rw [hp2e] at hm
          exact Option.some_inj.mp hm
      subst hm2
      unfold submitMoveChecks
      simp [h, hact, hp2e, hpp, hab]
  · intro h hact hp2 hmem hab hT
    obtain ⟨p2, hp2e⟩ := Option.isSome_iff_exists.mp hp2
    by_cases hpp : userId = g.player1Id
    · subst hpp
      simp at hT
      unfold submitMoveChecks
      simp [h, hact, hp2e, hab, hT]
    · have hm2 : userId = p2 := by
        rcases hmem with hm | hm
        · exact absurd hm hpp
        · rw [hp2e] at hm
          exact Option.some_inj.mp hm
      subst hm2
      simp [hpp] at hT
      unfold submitMoveChecks
      simp [h, hact, hp2e, hpp, hab, hT]
  · intro h hact hp2 hmem hab hT hvb hfd
    obtain ⟨p2, hp2e⟩ := Option.isSome_iff_exists.mp hp2
    by_cases hpp : userId = g.player1Id
    · subst hpp
      simp at hT
      unfold submitMoveChecks
      simp [h, hact, hp2e, hab, hT, applyMove, hvb, hfd]
    · have hm2 : userId = p2 := by
        rcases hmem with hm | hm
        · exact absurd hm hpp
        · rw [hp2e] at hm
          exact Option.some_inj.mp hm
      subst hm2
      simp [hpp] at hT
      unfold submitMoveChecks
      simp [h, hact, hp2e, hpp, hab, hT, applyMove, hvb, hfd]

/-- C3 amended witness: on the sample ACTIVE game with a full column 0,
player 1's in-range move into the full column is rejected with
COLUMN_FULL, the last check of the chain. -/
theorem moveCheckOrderAmended_witness :
    submitMoveChecks "u1" 0 0
        (some { sampleActiveGame with
                  board := ['1', '2'] ++ List.replicate 5 '0'
                    ++ ['2', '1'] ++ List.replicate 5 '0'
                    ++ ['1', '2'] ++ List.replicate 5 '0'
                    ++ ['2', '1'] ++ List.replicate 5 '0'
                    ++ ['1', '2'] ++ List.replicate 5 '0'
                    ++ ['2', '1'] ++ List.replicate 5 '0' })
      = .err .COLUMN_FULL :=
  (moveCheckOrderAmended "u1" 0 0
      { sampleActiveGame with
          board := ['1', '2'] ++ List.replicate 5 '0'
            ++ ['2', '1'] ++ List.replicate 5 '0'
            ++ ['1', '2'] ++ List.replicate 5 '0'
            ++ ['2', '1'] ++ List.replicate 5 '0'
            ++ ['1', '2'] ++ List.replicate 5 '0'
            ++ ['2', '1'] ++ List.replicate 5 '0' }).2.2.2.2.2.2.2
    (by decide) (by decide) (by decide) (Or.inl (by decide)) (by decide)
    (by decide) (by decide) (by decide)

/-- The bottom-up column scan returns `none` exactly when no row up to the
fuel bound holds an empty cell. -/
theorem findDropRowAux_eq_none (b : List Char) (c : Nat) :
    ∀ n, findDropRowAux b c n = Option.none ↔
      ∀ r, r ≤ n → cellAt b r c ≠ '0' := by
  intro n
  induction n with
  | zero =>
    constructor
    · intro h r hr
      interval_cases r
      intro hc
      simp [findDropRowAux, hc] at h
    · intro h
      simp [findDropRowAux]
      exact h 0 le_rfl
  | succ n ih =>
    constructor
    · intro hnone r hr
      unfold findDropRowAux at hnone
      by_cases hc : cellAt b (n + 1) c = '0'
      · simp [hc] at hnone
      · simp [hc] at hnone
        rcases Nat.lt_or_ge r (n + 1) with hlt | hge
        · exact (ih.mp hnone) r (Nat.lt_succ_iff.mp hlt)
        · have hreq : r = n + 1 := le_antisymm hr hge
          rw [hreq]
          exact hc
    · intro hall
      have hc := hall (n + 1) le_rfl
      unfold findDropRowAux
      simp [hc]
      exact ih.mpr fun r hr => hall r (le_trans hr (Nat.le_succ n))

/-- When the bottom-up scan returns a row, that row's cell is empty and
every lower row of the column (larger row index up to the fuel bound) is
occupied. -/
theorem findDropRowAux_eq_some (b : List Char) (c : Nat) :
    ∀ n r, findDropRowAux b c n = some r →
      r ≤ n ∧ cellAt b r c = '0' ∧
        ∀ r2, r < r2 → r2 ≤ n → cellAt b r2 c ≠ '0' := by
  intro n
  induction n with
  | zero =>
    intro r h
    by_cases hc : cellAt b 0 c = '0'
    · simp [findDropRowAux, hc] at h
      subst h
      exact ⟨le_rfl, hc, fun r2 h1 h2 => by omega⟩
    · simp [findDropRowAux, hc] at h
  | succ n ih =>
    intro r h
    unfold findDropRowAux at h
    by_cases hc : cellAt b (n + 1) c = '0'
    · simp [hc] at h
      subst h
      exact ⟨le_rfl, hc, fun r2 h1 h2 => by omega⟩
    · simp [hc] at h
      obtain ⟨h1, h2, h3⟩ := ih r h
      refine ⟨le_trans h1 (Nat.le_succ n), h2, ?_⟩
      intro r2 hlt hle
      rcases Nat.lt_or_ge r2 (n + 1) with hlt2 | hge
      · exact h3 r2 hlt (Nat.lt_succ_iff.mp hlt2)
      · have hreq : r2 = n + 1 := le_antisymm hle hge
        rw [hreq]
        exact hc

/-- C9 counterexample.  The well-formed board whose column 0 has its *top*
cell occupied but its lower cells empty: `applyMove` does not report the
column as full — it drops to row 5 — so "returns none exactly when the
column's top cell is occupied" fails on this well-formed 42-character
board. -/
theorem applyMoveTopCellCounterexample :
    assertValidBoard ('1' :: List.replicate 41 '0') = true ∧
    cellAt ('1' :: List.replicate 41 '0') 0 0 ≠ '0' ∧
    applyMove ('1' :: List.replicate 41 '0') 0 2 ≠ ApplyMoveResult.noMove ∧
    applyMove ('1' :: List.replicate 41 '0') 0 2
      = ApplyMoveResult.ok
          (('1' :: List.replicate 41 '0').set 35 '2') 5 := by
  refine ⟨by decide, by decide, by decide, by decide⟩

/-- C9 amended.  For every well-formed 42-character board over
`{'0','1','2'}`, every column 0–6 and every player 1 or 2: `applyMove`
reports no move exactly when *no cell of the column is empty*; it never
raises the board-shape violation; and otherwise it returns the lowest row
of the column whose cell is empty together with a board that is again
well-formed and differs from the input exactly at that cell, where the
player's symbol now stands. -/
theorem applyMoveAmended (b : List Char) (col p : Nat)
    (hvb : assertValidBoard b = true) (hcol : col ≤ 6)
    (hp : p = 1 ∨ p = 2) :
    (applyMove b col p = ApplyMoveResult.noMove ↔
      ∀ r, r ≤ 5 → cellAt b r col ≠ '0') ∧
    applyMove b col p ≠ ApplyMoveResult.invalidBoard ∧
    (∀ nb row, applyMove b col p = ApplyMoveResult.ok nb row →
      row ≤ 5 ∧ cellAt b row col = '0' ∧
      (∀ r, row < r → r ≤ 5 → cellAt b r col ≠ '0') ∧
      nb = b.set (row * 7 + col) (playerChar p) ∧
      assertValidBoard nb = true ∧
      cellAt nb row col = playerChar p ∧ playerChar p ≠ '0' ∧
      ∀ i, i ≠ row * 7 + col → nb.getD i 'X' = b.getD i 'X') := by
  have hvb2 := hvb
  simp only [assertValidBoard, BOARD_SIZE, BOARD_ROWS, BOARD_COLS,
    Bool.and_eq_true, beq_iff_eq, List.all_eq_true] at hvb2
  have hlen : b.length = 42 := by
    have := hvb2.1
    omega
  have hall : ∀ x ∈ b, validBoardChar x = true := hvb2.2
  have hfd : findDropRow b col = findDropRowAux b col 5 := by
    unfold findDropRow
    rw [if_neg (by omega)]
  rcases haux : findDropRowAux b col 5 with _ | row
  · have happ : applyMove b col p = ApplyMoveResult.noMove := by
      unfold applyMove
      rw [hfd, haux]
      simp [hvb]
    refine ⟨?_, ?_, ?_⟩
    · rw [happ]
      simpa using (findDropRowAux_eq_none b col 5).mp haux
    · rw [happ]
      simp
    · intro nb row h
      rw [happ] at h
      simp at h
  · obtain ⟨hr5, hc0, habove⟩ := findDropRowAux_eq_some b col 5 row haux
    have hidx : row * 7 + col < b.length := by
      rw [hlen]
      omega
    have hset : b.take (row * 7 + col) ++ [playerChar p]
        ++ b.drop (row * 7 + col + 1)
        = b.set (row * 7 + col) (playerChar p) := by
      rw [List.set_eq_take_cons_drop _ hidx]
      simp
    have hchar : validBoardChar (playerChar p) = true := by
      rcases hp with h | h <;> simp [h, playerChar, validBoardChar]
    have hnewvalid :
        assertValidBoard (b.set (row * 7 + col) (playerChar p)) = true := by
      simp only [assertValidBoard, BOARD_SIZE, BOARD_ROWS, BOARD_COLS,
        Bool.and_eq_true, beq_iff_eq, List.all_eq_true, List.length_set]
      refine ⟨by omega, ?_⟩
      intro x hx
      rcases List.mem_or_eq_of_mem_set hx with hmem | hxe
      · exact hall x hmem
      · rw [hxe]
        exact hchar
    have happ : applyMove b col p
        = ApplyMoveResult.ok (b.set (row * 7 + col) (playerChar p)) row := by
      unfold applyMove
      rw [hfd, haux]
      simp only [hvb, Bool.not_true, Bool.false_eq_true, if_false, hset,
        hnewvalid]
    refine ⟨?_, ?_, ?_⟩
    · rw [happ]
      simp only [iff_iff_implies_and_implies]
      constructor
      · intro h
        simp at h
      · intro hfull
        exact absurd hc0 (hfull row hr5)
    · rw [happ]
      simp
    · intro nb row2 h
      rw [happ] at h
      simp only [ApplyMoveResult.ok.injEq] at h
      obtain ⟨hnb, hrow⟩ := h
      subst hnb
      subst hrow
      refine ⟨hr5, hc0, habove, rfl, hnewvalid, ?_, ?_, ?_⟩
      · simp [cellAt, List.getD_eq_getElem?_getD, List.getElem?_set_self',
          List.getElem?_eq_getElem hidx]
      · rcases hp with h | h <;> simp [h, playerChar]
      · intro i hi
        simp [List.getD_eq_getElem?_getD,
          List.getElem?_set_ne (fun hh => hi hh.symm)]

/-- C9 amended witness: dropping player 1 into column 0 of the empty board
lands at row 5, index 35, and leaves every other cell unchanged. -/
theorem applyMoveAmended_witness :
    applyMove emptyBoard 0 1 ≠ ApplyMoveResult.invalidBoard ∧
    (applyMove emptyBoard 0 1 = ApplyMoveResult.noMove ↔
      ∀ r, r ≤ 5 → cellAt emptyBoard r 0 ≠ '0') := by
  have h := applyMoveAmended emptyBoard 0 1 (by decide) (by decide)
    (Or.inl rfl)
  exact ⟨h.2.1, h.1⟩

/-- C7.  The cancel/join race evaluated at the failing interleaving: the
cancel handler's three checks pass on the WAITING row it read; `"u2"`'s
join transaction then commits, activating the game and capturing both
rating snapshots; and the cancel handler's unconditional, guard-free,
non-transactional status write (games.ts:497-500, keyed only on the row
id) still lands.  The result is an ABANDONED record whose
before-snapshots are set while its deltas and finalization timestamp are
null — falsifying the claimed invariant, which the unguarded cancel
write (unlike the guarded finalization writes) does not preserve. -/
theorem cancelJoinRaceBreaksRatingInvariant :
    joinByCode "u2" 1250 1200 5 true (some c7WaitingGame) c7WaitingGame
      = (JoinOutcome.joined c7JoinedGame, c7JoinedGame) ∧
    c7JoinedGame.status = GameStatus.ACTIVE ∧
    c7JoinedGame.p1RatingBefore = some 1200 ∧
    c7JoinedGame.p2RatingBefore = some 1250 ∧
    cancelGame "u1" c7WaitingGame c7JoinedGame
      = (CancelOutcome.success,
         { c7JoinedGame with status := GameStatus.ABANDONED }) ∧
    ¬ ratingInvariant { c7JoinedGame with status := GameStatus.ABANDONED } :=
  ⟨by decide, by decide, by decide, by decide, by decide, by
    unfold ratingInvariant finalized snapshotsSet terminalStatus
    decide⟩

end Connect4
